import Mathlib

/-!
Verification of the gonfig configuration-loading library.

The repository has two source variants of the same package:
* `gonfig.go` — `FindConfig`, `ReadFoundConfig`, `ReadConfig` with a
  single-error validator (`ValidateFunc`);
* a second file — `findConfig` (identical body to `FindConfig`) and a
  combined `ReadConfig` with a multi-error validator interface
  (`Validator`, whose `Validate` returns `[]error`).

The embedding models the filesystem as a pure oracle (`FS`): `stat`
mirrors `os.Stat` (with the `FileInfo` discarded, as the source does via
`_, err = os.Stat(p)`), and `readFile` mirrors `os.ReadFile`.  Go `error`
values are modelled by the inductive `Err`, with one constructor per
`fmt.Errorf`/`errors.New` construction site in the source, each wrapper
holding the path it names and the cause it wraps (`%w`).  User-supplied
functions and their errors enter through `Err.base`.  Mutation of the
caller's `*T` target is modelled by explicit state passing: an unmarshal
function consumes the bytes and the current target value and returns the
new target value together with the Go function's returned error.
-/

/-- Go `error` values, one constructor per construction site in the source.
`base` stands for any error produced outside the library (the operating
system's stat/read errors and the caller's unmarshal/validate errors). -/
inductive Err : Type where
  | base (msg : String) : Err
  /-- `errors.New("could not locate configuration file")` -/
  | notFound : Err
  /-- `fmt.Errorf("could not stat configuration file %s: %w", path, err)` -/
  | statError (path : String) (cause : Err) : Err
  /-- `fmt.Errorf("unable to read configuration file %s: %w", path, err)` -/
  | readError (path : String) (cause : Err) : Err
  /-- `fmt.Errorf("unable to unmarshal configuration file %s: %w", path, err)` -/
  | unmarshalError (path : String) (cause : Err) : Err
deriving DecidableEq, Repr

/-- The filesystem oracle: the outcomes of `os.Stat` and `os.ReadFile` on
every path, frozen for the duration of one call.  File contents are byte
sequences, modelled as `List Nat`. -/
structure FS : Type where
  stat : String → Except Err Unit
  readFile : String → Except Err (List Nat)

/-- Whether `os.Stat` succeeds on `p` (`err == nil` in the source). -/
def statOk (fs : FS) (p : String) : Bool :=
  match fs.stat p with
  | Except.ok _ => true
  | Except.error _ => false

/-- `UnmarshalFunc[*T]` from `gonfig.go`: `func([]byte, *T) error`.  The
`*T` argument is mutable, so the model returns the post-call value of the
target alongside the Go return value. -/
def UnmarshalFunc (T : Type) : Type :=
  List Nat → T → T × Option Err

/-- `ValidateFunc[T]` from `gonfig.go`: `func(T) error`. -/
def ValidateFunc (T : Type) : Type :=
  T → Option Err

/-- The `Validator[T]` interface of the multi-error variant: its single
method `Validate(config T) []error`. -/
def Validator (T : Type) : Type :=
  T → List Err

/-- `FindConfig` from `gonfig.go`.  With an empty primary path it scans
the fallback list, re-assigning `path` on every statable candidate (so the
loop runs to the end and the last statable candidate is kept); with a
non-empty primary path it stats that path only. -/
def FindConfig (fs : FS) (path : String) (paths : List String) :
    Except Err String :=
  if path = "" then
    let found := paths.foldl (fun acc p => if statOk fs p then p else acc) path
    if found = "" then
      Except.error Err.notFound
    else
      Except.ok found
  else
    match fs.stat path with
    | Except.error e => Except.error (Err.statError path e)
    | Except.ok _ => Except.ok path

/-- `ReadFoundConfig` from `gonfig.go`: read the file, unmarshal into the
target, then validate.  Returns the final value of the target together
with the returned error (`none` = `nil`). -/
def ReadFoundConfig {T : Type} (fs : FS) (path : String) (c : T)
    (unmarshal : UnmarshalFunc T) (validate : ValidateFunc T) :
    T × Option Err :=
  match fs.readFile path with
  | Except.error e => (c, some (Err.readError path e))
  | Except.ok content =>
    match unmarshal content c with
    | (c1, some e) => (c1, some (Err.unmarshalError path e))
    | (c1, none) => (c1, validate c1)

/-- `ReadConfig` from `gonfig.go`: resolve the path, then delegate to
`ReadFoundConfig`; the resolved path is returned alongside whatever
`ReadFoundConfig` returns (`return path, ReadFoundConfig(...)`). -/
def ReadConfig {T : Type} (fs : FS) (path : String)
    (searchPaths : List String) (c : T) (unmarshal : UnmarshalFunc T)
    (validate : ValidateFunc T) : String × T × Option Err :=
  match FindConfig fs path searchPaths with
  | Except.error e => ("", c, some e)
  | Except.ok p =>
    let r := ReadFoundConfig fs p c unmarshal validate
    (p, r.1, r.2)

namespace Multi

/-- `findConfig` from the multi-error variant; its body is line-for-line
identical to `FindConfig` of `gonfig.go`. -/
def findConfig (fs : FS) (path : String) (paths : List String) :
    Except Err String :=
  if path = "" then
    let found := paths.foldl (fun acc p => if statOk fs p then p else acc) path
    if found = "" then
      Except.error Err.notFound
    else
      Except.ok found
  else
    match fs.stat path with
    | Except.error e => Except.error (Err.statError path e)
    | Except.ok _ => Except.ok path

/-- `ReadConfig` from the multi-error variant: resolve, read, unmarshal,
then `return path, validator.Validate(*c)`.  Every earlier failure
returns the empty path and a singleton error list. -/
def ReadConfig {T : Type} (fs : FS) (path : String) (paths : List String)
    (c : T) (unmarshal : UnmarshalFunc T) (validator : Validator T) :
    String × T × List Err :=
  match findConfig fs path paths with
  | Except.error e => ("", c, [e])
  | Except.ok p =>
    match fs.readFile p with
    | Except.error e => ("", c, [Err.readError p e])
    | Except.ok content =>
      match unmarshal content c with
      | (c1, some e) => ("", c1, [Err.unmarshalError p e])
      | (c1, none) => (p, c1, validator c1)

theorem findConfig_eq (fs : FS) (path : String) (paths : List String) :
    findConfig fs path paths = FindConfig fs path paths := rfl

end Multi

/-! ### Lemmas about the fallback scan -/

theorem foldl_scan_of_none_statable (fs : FS) (a : String)
    (l : List String) (h : ∀ p ∈ l, statOk fs p = false) :
    l.foldl (fun acc p => if statOk fs p then p else acc) a = a := by
  induction l generalizing a with
  | nil => rfl
  | cons x xs ih =>
    have hx : statOk fs x = false := h x (List.mem_cons_self x xs)
    simp only [List.foldl_cons, hx, if_false]
    exact ih a (fun p hp => h p (List.mem_cons_of_mem x hp))

theorem foldl_scan_mem (fs : FS) (a : String) (l : List String) :
    l.foldl (fun acc p => if statOk fs p then p else acc) a = a ∨
      l.foldl (fun acc p => if statOk fs p then p else acc) a ∈ l := by
  induction l generalizing a with
  | nil => exact Or.inl rfl
  | cons x xs ih =>
    simp only [List.foldl_cons]
    by_cases hx : statOk fs x
    · simp only [hx, if_true]
      rcases ih x with h | h
      · exact Or.inr (by rw [h]; exact List.mem_cons_self x xs)
      · exact Or.inr (List.mem_cons_of_mem x h)
    · simp only [hx, if_false]
      rcases ih a with h | h
      · exact Or.inl h
      · exact Or.inr (List.mem_cons_of_mem x h)

theorem foldl_scan_last_statable (fs : FS) (l : List String) (a : String)
    (j : Nat) (hj : j < l.length) (hstat : statOk fs (l.get ⟨j, hj⟩) = true)
    (hafter : ∀ k (hk : k < l.length), j < k →
      statOk fs (l.get ⟨k, hk⟩) = false) :
    l.foldl (fun acc p => if statOk fs p then p else acc) a
      = l.get ⟨j, hj⟩ := by
  induction l generalizing a j with
  | nil => exact absurd hj (Nat.not_lt_zero j)
  | cons x xs ih =>
    cases j with
    | zero =>
      have hx : statOk fs x = true := hstat
      show List.foldl _ (if statOk fs x then x else a) xs = x
      rw [hx, if_pos rfl]
      exact foldl_scan_of_none_statable fs x xs (by
        intro p hp
        rcases List.mem_iff_get.mp hp with ⟨⟨k, hk⟩, hpk⟩
        have h2 := hafter (k + 1) (Nat.succ_lt_succ hk) (Nat.succ_pos k)
        rw [← hpk]
        exact h2)
    | succ j' =>
      have hj' : j' < xs.length := Nat.lt_of_succ_lt_succ hj
      show List.foldl _ (if statOk fs x then x else a) xs = xs.get ⟨j', hj'⟩
      exact ih (if statOk fs x then x else a) j' hj' hstat
        (fun k hk hjk => hafter (k + 1) (Nat.succ_lt_succ hk)
          (Nat.succ_lt_succ hjk))

/-! ### Characterizations of the resolver's two branches -/

theorem FindConfig_empty (fs : FS) (paths : List String) :
    FindConfig fs "" paths =
      if paths.foldl (fun acc p => if statOk fs p then p else acc) "" = ""
      then Except.error Err.notFound
      else Except.ok
        (paths.foldl (fun acc p => if statOk fs p then p else acc) "") := rfl

theorem FindConfig_nonempty (fs : FS) (path : String)
    (paths : List String) (h : path ≠ "") :
    FindConfig fs path paths =
      match fs.stat path with
      | Except.error e => Except.error (Err.statError path e)
      | Except.ok _ => Except.ok path := by
  unfold FindConfig
  rw [if_neg h]

theorem FindConfig_ok_ne_empty (fs : FS) (path r : String)
    (paths : List String) (h : FindConfig fs path paths = Except.ok r) :
    r ≠ "" := by
  by_cases hp : path = ""
  · subst hp
    rw [FindConfig_empty] at h
    by_cases hf :
        paths.foldl (fun acc p => if statOk fs p then p else acc) "" = ""
    · rw [if_pos hf] at h
      cases h
    · rw [if_neg hf] at h
      rw [← Except.ok.inj h]
      exact hf
  · rw [FindConfig_nonempty fs path paths hp] at h
    cases hstat : fs.stat path with
    | error e => rw [hstat] at h; cases h
    | ok u => rw [hstat] at h; rw [← Except.ok.inj h]; exact hp

/-! ### Concrete fixtures used by the witnesses -/

/-- A sample filesystem: `"a"` and `"b"` stat successfully, everything
else does not; `"a"` holds the bytes `[1, 2]`. -/
def sampleFS : FS where
  stat := fun p =>
    if p = "a" ∨ p = "b" then Except.ok ()
    else Except.error (Err.base "no such file")
  readFile := fun p =>
    if p = "a" then Except.ok [1, 2]
    else Except.error (Err.base "no such file")

/-- Same stat outcomes as `sampleFS`, but every read fails. -/
def sampleFS2 : FS where
  stat := sampleFS.stat
  readFile := fun _ => Except.error (Err.base "io failure")

/-! ### Claim theorems -/

/-- Claim C1: with an empty explicit path, the fallback scan does not stop
at the first statable candidate: if the entries at indices `i < j` are
both statable and `j` is the position of the last statable entry, the
resolver returns the entry at index `j` — the last statable entry wins.
The hypothesis `hwf` records the operating-system fact that `os.Stat` of
the empty path never succeeds (so a statable candidate is never the empty
string). -/
theorem findConfig_last_statable_wins (fs : FS) (paths : List String)
    (i j : Nat) (hij : i < j) (hj : j < paths.length)
    (hwf : statOk fs "" = false)
    (_hsi : statOk fs (paths.get ⟨i, Nat.lt_trans hij hj⟩) = true)
    (hsj : statOk fs (paths.get ⟨j, hj⟩) = true)
    (hafter : ∀ k (hk : k < paths.length), j < k →
      statOk fs (paths.get ⟨k, hk⟩) = false) :
    FindConfig fs "" paths = Except.ok (paths.get ⟨j, hj⟩) ∧
    Multi.findConfig fs "" paths = Except.ok (paths.get ⟨j, hj⟩) := by
  have hfold := foldl_scan_last_statable fs paths "" j hj hsj hafter
  have hne : paths.get ⟨j, hj⟩ ≠ "" := by
    intro h
    rw [h, hwf] at hsj
    cases hsj
  have h1 : FindConfig fs "" paths = Except.ok (paths.get ⟨j, hj⟩) := by
    rw [FindConfig_empty, hfold, if_neg hne]
  exact ⟨h1, (Multi.findConfig_eq fs "" paths).trans h1⟩

theorem findConfig_last_statable_wins_witness :
    FindConfig sampleFS "" ["x", "a", "b", "y"] = Except.ok "b" ∧
    Multi.findConfig sampleFS "" ["x", "a", "b", "y"] = Except.ok "b" :=
  findConfig_last_statable_wins sampleFS ["x", "a", "b", "y"] 1 2
    (by decide) (by decide) rfl rfl rfl
    (by
      intro k hk h2k
      have hk4 : k < 4 := by simpa using hk
      have h3 : k = 3 := by omega
      subst h3
      rfl)

/-- Claim C2: a non-empty explicit path that stats successfully is
returned unchanged, for every possible fallback list — the fallback scan
never runs. -/
theorem findConfig_explicit_ok (fs : FS) (path : String)
    (hne : path ≠ "") (hstat : fs.stat path = Except.ok ()) :
    ∀ paths : List String,
      FindConfig fs path paths = Except.ok path ∧
      Multi.findConfig fs path paths = Except.ok path := by
  intro paths
  have h1 : FindConfig fs path paths = Except.ok path := by
    rw [FindConfig_nonempty fs path paths hne, hstat]
  exact ⟨h1, (Multi.findConfig_eq fs path paths).trans h1⟩

theorem findConfig_explicit_ok_witness :
    FindConfig sampleFS "a" ["b", "c"] = Except.ok "a" ∧
    Multi.findConfig sampleFS "a" ["b", "c"] = Except.ok "a" :=
  findConfig_explicit_ok sampleFS "a" (by decide) rfl ["b", "c"]

/-- Claim C3: a non-empty explicit path whose stat fails makes the
resolver fail with the stat-site error that names the path and wraps the
underlying filesystem error; the result does not depend on the fallback
list (quantified over all `paths`) and, through `ReadConfig`, no file
read is ever attempted (the result is the same for every read oracle
`rf`, and the target object comes back untouched). -/
theorem findConfig_explicit_inaccessible {T : Type}
    (st : String → Except Err Unit) (path : String) (e : Err)
    (hne : path ≠ "") (hstat : st path = Except.error e) :
    ∀ (rf : String → Except Err (List Nat)) (paths : List String)
      (c : T) (u : UnmarshalFunc T) (v : ValidateFunc T),
      FindConfig ⟨st, rf⟩ path paths
          = Except.error (Err.statError path e) ∧
      ReadConfig ⟨st, rf⟩ path paths c u v
          = ("", c, some (Err.statError path e)) := by
  intro rf paths c u v
  have hfind : FindConfig ⟨st, rf⟩ path paths
      = Except.error (Err.statError path e) := by
    rw [FindConfig_nonempty ⟨st, rf⟩ path paths hne]
    show (match st path with
      | Except.error e => Except.error (Err.statError path e)
      | Except.ok _ => Except.ok path) = _
    rw [hstat]
  refine ⟨hfind, ?_⟩
  unfold ReadConfig
  rw [hfind]

theorem findConfig_explicit_inaccessible_witness :
    ReadConfig sampleFS "c" ["a"] (0 : Nat)
        (fun _ t => (t, none)) (fun _ => none)
      = ("", 0, some (Err.statError "c" (Err.base "no such file"))) :=
  (findConfig_explicit_inaccessible sampleFS.stat "c"
    (Err.base "no such file") (by decide) rfl sampleFS.readFile ["a"]
    0 (fun _ t => (t, none)) (fun _ => none)).2

/-- Claim C4: with an empty explicit path and no statable fallback entry
(the empty list included), the resolver fails with the bare not-found
error, which names no path and wraps no cause; the individual stat
failures are swallowed — whatever the per-candidate stat errors were, the
result is the same constant error. -/
theorem findConfig_no_statable (fs : FS) (paths : List String)
    (h : ∀ p ∈ paths, statOk fs p = false) :
    FindConfig fs "" paths = Except.error Err.notFound ∧
    Multi.findConfig fs "" paths = Except.error Err.notFound := by
  have hfold := foldl_scan_of_none_statable fs "" paths h
  have h1 : FindConfig fs "" paths = Except.error Err.notFound := by
    rw [FindConfig_empty, hfold, if_pos rfl]
  exact ⟨h1, (Multi.findConfig_eq fs "" paths).trans h1⟩

theorem findConfig_no_statable_witness :
    FindConfig sampleFS "" ["c", "d"] = Except.error Err.notFound ∧
    Multi.findConfig sampleFS "" ["c", "d"] = Except.error Err.notFound :=
  findConfig_no_statable sampleFS ["c", "d"]
    (by
      intro p hp
      fin_cases hp <;> rfl)

/-- Claim C5: when the read succeeds but unmarshaling fails, both
`ReadFoundConfig` and the multi-error `ReadConfig` fail with the
unmarshal-site error that names the path and wraps the unmarshal
function's own error; the validate function is never invoked (the result
is the same for every validator). -/
theorem readFoundConfig_unmarshal_failure {T : Type} (fs : FS)
    (path : String) (content : List Nat) (c c1 : T)
    (u : UnmarshalFunc T) (e : Err)
    (hread : fs.readFile path = Except.ok content)
    (hu : u content c = (c1, some e)) :
    (∀ v : ValidateFunc T,
      ReadFoundConfig fs path c u v
        = (c1, some (Err.unmarshalError path e))) ∧
    (∀ (p0 : String) (paths : List String) (validator : Validator T),
      Multi.findConfig fs p0 paths = Except.ok path →
      Multi.ReadConfig fs p0 paths c u validator
        = ("", c1, [Err.unmarshalError path e])) := by
  constructor
  · intro v
    simp only [ReadFoundConfig, hread, hu]
  · intro p0 paths validator hfind
    simp only [Multi.ReadConfig, hfind, hread, hu]

theorem readFoundConfig_unmarshal_failure_witness :
    ReadFoundConfig sampleFS "a" (0 : Nat)
        (fun _ _ => (7, some (Err.base "parse"))) (fun _ => none)
      = (7, some (Err.unmarshalError "a" (Err.base "parse"))) ∧
    Multi.ReadConfig sampleFS "" ["a"] (0 : Nat)
        (fun _ _ => (7, some (Err.base "parse"))) (fun _ => [])
      = ("", 7, [Err.unmarshalError "a" (Err.base "parse")]) :=
  ⟨(readFoundConfig_unmarshal_failure sampleFS "a" [1, 2] 0 7
      (fun _ _ => (7, some (Err.base "parse"))) (Err.base "parse")
      rfl rfl).1 (fun _ => none),
   (readFoundConfig_unmarshal_failure sampleFS "a" [1, 2] 0 7
      (fun _ _ => (7, some (Err.base "parse"))) (Err.base "parse")
      rfl rfl).2 "" ["a"] (fun _ => []) rfl⟩

/-- Claim C6: when read, unmarshal and the single-error validator all
succeed, `ReadFoundConfig` succeeds and the final target value is exactly
the value the unmarshal function produced — the library writes nothing
further into it. -/
theorem readFoundConfig_success {T : Type} (fs : FS) (path : String)
    (content : List Nat) (c c1 : T) (u : UnmarshalFunc T)
    (v : ValidateFunc T)
    (hread : fs.readFile path = Except.ok content)
    (hu : u content c = (c1, none)) (hv : v c1 = none) :
    ReadFoundConfig fs path c u v = (c1, none) := by
  simp only [ReadFoundConfig, hread, hu, hv]

theorem readFoundConfig_success_witness :
    ReadFoundConfig sampleFS "a" (0 : Nat)
        (fun content _ => (content.length, none)) (fun _ => none)
      = (2, none) :=
  readFoundConfig_success sampleFS "a" [1, 2] 0 2
    (fun content _ => (content.length, none)) (fun _ => none)
    rfl rfl rfl

/-- Claim C7: in the multi-error variant, once resolution, read and
unmarshal succeed, the validator's error collection is returned to the
caller verbatim — the empty collection for success, and any list of
violations exactly as produced, in order, not wrapped into a single
error. -/
theorem multi_validator_errors_as_is {T : Type} (fs : FS)
    (p0 path : String) (paths : List String) (content : List Nat)
    (c c1 : T) (u : UnmarshalFunc T)
    (hfind : Multi.findConfig fs p0 paths = Except.ok path)
    (hread : fs.readFile path = Except.ok content)
    (hu : u content c = (c1, none)) :
    ∀ validator : Validator T,
      Multi.ReadConfig fs p0 paths c u validator
        = (path, c1, validator c1) := by
  intro validator
  simp only [Multi.ReadConfig, hfind, hread, hu]

theorem multi_validator_errors_as_is_witness :
    Multi.ReadConfig sampleFS "" ["a"] (0 : Nat)
        (fun content _ => (content.length, none))
        (fun _ => [Err.base "too small", Err.base "too big"])
      = ("a", 2, [Err.base "too small", Err.base "too big"]) :=
  multi_validator_errors_as_is sampleFS "" "a" ["a"] [1, 2] 0 2
    (fun content _ => (content.length, none)) rfl rfl rfl
    (fun _ => [Err.base "too small", Err.base "too big"])

/-- Claim C8: the resolver is deterministic and stateless — it is a pure
function of its arguments and the stat oracle, so two calls against
filesystem snapshots with identical stat outcomes on every path produce
identical results, in both variants. -/
theorem findConfig_deterministic (fs1 fs2 : FS) (path : String)
    (paths : List String) (h : ∀ p, fs1.stat p = fs2.stat p) :
    FindConfig fs1 path paths = FindConfig fs2 path paths ∧
    Multi.findConfig fs1 path paths = Multi.findConfig fs2 path paths := by
  have hstat : fs1.stat = fs2.stat := funext h
  have hok : statOk fs1 = statOk fs2 := by
    funext p
    unfold statOk
    rw [hstat]
  constructor
  · unfold FindConfig
    rw [hstat, hok]
  · unfold Multi.findConfig
    rw [hstat, hok]

theorem findConfig_deterministic_witness :
    FindConfig sampleFS "a" ["b"] = FindConfig sampleFS2 "a" ["b"] ∧
    Multi.findConfig sampleFS "a" ["b"]
      = Multi.findConfig sampleFS2 "a" ["b"] :=
  findConfig_deterministic sampleFS sampleFS2 "a" ["b"] (fun _ => rfl)

/-- Claim C9: a successfully resolved path is never fabricated: it is the
non-empty explicit path itself, or an element of the fallback list. -/
theorem findConfig_no_fabrication (fs : FS) (path r : String)
    (paths : List String)
    (h : FindConfig fs path paths = Except.ok r) :
    (path ≠ "" ∧ r = path) ∨ r ∈ paths := by
  by_cases hp : path = ""
  · subst hp
    rw [FindConfig_empty] at h
    by_cases hf :
        paths.foldl (fun acc p => if statOk fs p then p else acc) "" = ""
    · rw [if_pos hf] at h
      cases h
    · rw [if_neg hf] at h
      rcases foldl_scan_mem fs "" paths with hm | hm
      · exact absurd hm hf
      · exact Or.inr (Except.ok.inj h ▸ hm)
  · rw [FindConfig_nonempty fs path paths hp] at h
    cases hstat : fs.stat path with
    | error e => rw [hstat] at h; cases h
    | ok u =>
      rw [hstat] at h
      exact Or.inl ⟨hp, (Except.ok.inj h).symm⟩

theorem findConfig_no_fabrication_witness :
    ((("" : String) ≠ "" ∧ ("a" : String) = "") ∨
      ("a" : String) ∈ (["x", "a"] : List String)) :=
  findConfig_no_fabrication sampleFS "" "a" ["x", "a"] rfl

/-- Claim C10: once resolution succeeds, the resolved path is non-empty
and the single-error `ReadConfig` always reports it, whatever the later
stages do; in particular a validation failure still comes back with the
resolved path.  In the multi-error variant a validation failure also
comes back with the resolved path, while a read failure (like an
unmarshal failure) yields the empty-string path. -/
theorem readConfig_resolved_path_reporting {T : Type} (fs : FS)
    (p0 p : String) (paths : List String)
    (hfind : FindConfig fs p0 paths = Except.ok p) :
    p ≠ "" ∧
    (∀ (c : T) (u : UnmarshalFunc T) (v : ValidateFunc T),
      (ReadConfig fs p0 paths c u v).1 = p) ∧
    (∀ (content : List Nat) (c c1 : T) (u : UnmarshalFunc T)
        (v : ValidateFunc T) (e : Err),
      fs.readFile p = Except.ok content → u content c = (c1, none) →
      v c1 = some e →
      ReadConfig fs p0 paths c u v = (p, c1, some e)) ∧
    (∀ (content : List Nat) (c c1 : T) (u : UnmarshalFunc T)
        (validator : Validator T),
      fs.readFile p = Except.ok content → u content c = (c1, none) →
      Multi.ReadConfig fs p0 paths c u validator = (p, c1, validator c1)) ∧
    (∀ (c : T) (u : UnmarshalFunc T) (validator : Validator T) (e : Err),
      fs.readFile p = Except.error e →
      Multi.ReadConfig fs p0 paths c u validator
        = ("", c, [Err.readError p e])) := by
  have hmfind : Multi.findConfig fs p0 paths = Except.ok p :=
    (Multi.findConfig_eq fs p0 paths).trans hfind
  refine ⟨FindConfig_ok_ne_empty fs p0 p paths hfind, ?_, ?_, ?_, ?_⟩
  · intro c u v
    simp only [ReadConfig, hfind]
  · intro content c c1 u v e hread hu hv
    simp only [ReadConfig, hfind, ReadFoundConfig, hread, hu, hv]
  · intro content c c1 u validator hread hu
    simp only [Multi.ReadConfig, hmfind, hread, hu]
  · intro c u validator e hread
    simp only [Multi.ReadConfig, hmfind, hread]

theorem readConfig_resolved_path_reporting_witness :
    ("a" : String) ≠ "" ∧
    ReadConfig sampleFS "" ["a"] (0 : Nat)
        (fun content _ => (content.length, none))
        (fun _ => some (Err.base "bad"))
      = ("a", 2, some (Err.base "bad")) ∧
    Multi.ReadConfig sampleFS "" ["a"] (0 : Nat)
        (fun content _ => (content.length, none))
        (fun _ => [Err.base "bad"])
      = ("a", 2, [Err.base "bad"]) ∧
    Multi.ReadConfig sampleFS2 "" ["a"] (0 : Nat)
        (fun content _ => (content.length, none))
        (fun _ => [])
      = ("", 0, [Err.readError "a" (Err.base "io failure")]) :=
  ⟨(@readConfig_resolved_path_reporting Nat sampleFS "" "a" ["a"] rfl).1,
   (@readConfig_resolved_path_reporting Nat sampleFS "" "a" ["a"]
      rfl).2.2.1 [1, 2] 0 2 (fun content _ => (content.length, none))
      (fun _ => some (Err.base "bad")) (Err.base "bad") rfl rfl rfl,
   (@readConfig_resolved_path_reporting Nat sampleFS "" "a" ["a"]
      rfl).2.2.2.1 [1, 2] 0 2 (fun content _ => (content.length, none))
      (fun _ => [Err.base "bad"]) rfl rfl,
   (@readConfig_resolved_path_reporting Nat sampleFS2 "" "a" ["a"]
      rfl).2.2.2.2 0 (fun content _ => (content.length, none))
      (fun _ => []) (Err.base "io failure") rfl⟩
